import Mathlib

/-!
Shallow embedding of `src/main.rs` of the `ocs01-test` client: the
signing blob (`sign_tx`), view-call normalization (`view_call`), the
transaction builder (`call_contract`), the confirmation poller
(`wait_tx`), the HTTP helper (`api_call`) and the method dispatcher in
`main`.  Remote I/O is modelled by explicit oracle streams, the ed25519
primitive by an abstract function argument, Rust `u64` by `Nat` with an
explicit `% 2^64` where wrap-around can occur.
-/

namespace Ocs01

/-- The six-entry string map built in `call_contract` and consumed by
`sign_tx` (Rust: `HashMap<&str, String>` with keys `from`, `to_`,
`amount`, `nonce`, `ou`, `timestamp`). -/
structure TxFields where
  from_ : String
  to_ : String
  amount : String
  nonce : String
  ou : String
  timestamp : String
  deriving Repr, DecidableEq

/-- The canonical byte string built by `sign_tx` (main.rs:68-71): the
Rust format string
`{"from":"..","to_":"..","amount":"..","nonce":..,"ou":"..","timestamp":..}`
with the six field values spliced in, `nonce` and `timestamp` unquoted. -/
def canonical_blob (tx : TxFields) : String :=
  "\x7b\"from\":\"" ++ tx.from_ ++ "\",\"to_\":\"" ++ tx.to_ ++
    "\",\"amount\":\"" ++ tx.amount ++ "\",\"nonce\":" ++ tx.nonce ++
    ",\"ou\":\"" ++ tx.ou ++ "\",\"timestamp\":" ++ tx.timestamp ++ "\x7d"

/-- Rust `sign_tx` (main.rs:67-75).  The ed25519 signing plus base64 step
`general_purpose::STANDARD.encode(sk.sign(blob.as_bytes()))` is a pure
function of the held key and the blob bytes; it is abstracted as the
argument `sig` (the key is fixed inside it). -/
def sign_tx (sig : String → String) (tx : TxFields) : String :=
  sig (canonical_blob tx)

/-- serde_json values as seen by `view_call` and `wait_tx`.  Numbers are
modelled as integers (the claims only exercise integral numbers). -/
inductive Json where
  | null
  | bool (b : Bool)
  | num (n : Int)
  | str (s : String)
  | arr (xs : List Json)
  | obj (fields : List (String × Json))

/-- serde_json's `PartialEq<&str>` on `Value` (the Rust
`value == "literal"`): true exactly when the value is that string. -/
def Json.eqStr (j : Json) (s : String) : Bool :=
  match j with
  | .str t => t = s
  | _ => false

/-- serde_json's `Index<&str>`: `value["key"]` yields the field when
`value` is an object containing it and `Value::Null` otherwise. -/
def Json.getField (j : Json) (key : String) : Json :=
  match j with
  | .obj fields =>
    match fields.find? (fun kv => kv.1 = key) with
    | some kv => kv.2
    | none => .null
  | _ => .null

/-- serde_json string escaping used by `Value::to_string()`: the quote,
the backslash, the named control escapes `\b \f \n \r \t`, any other
control character as lowercase `\u00XX`, everything else verbatim. -/
def escapeJsonChar (c : Char) : String :=
  if c = '"' then "\\\""
  else if c = '\\' then "\\\\"
  else if c = '\x08' then "\\b"
  else if c = '\x0c' then "\\f"
  else if c = '\n' then "\\n"
  else if c = '\r' then "\\r"
  else if c = '\t' then "\\t"
  else if c.toNat < 32 then "\\u" ++ (Nat.toDigits 16 c.toNat).asString.leftpad 4 '0'
  else String.singleton c

/-- serde_json rendering of a string literal. -/
def renderJsonString (s : String) : String :=
  "\"" ++ String.join (s.data.map escapeJsonChar) ++ "\""

mutual

/-- serde_json's compact `Value::to_string()` (`Display`), used by the
catch-all arm of `view_call`'s result match. -/
def Json.render : Json → String
  | .null => "null"
  | .bool true => "true"
  | .bool false => "false"
  | .num n => toString n
  | .str s => renderJsonString s
  | .arr xs => "[" ++ Json.renderArr xs ++ "]"
  | .obj fields => "\x7b" ++ Json.renderObj fields ++ "\x7d"

/-- Comma-separated rendering of array elements. -/
def Json.renderArr : List Json → String
  | [] => ""
  | [x] => x.render
  | x :: xs => x.render ++ "," ++ Json.renderArr xs

/-- Comma-separated rendering of object fields. -/
def Json.renderObj : List (String × Json) → String
  | [] => ""
  | [kv] => renderJsonString kv.1 ++ ":" ++ kv.2.render
  | kv :: kvs => renderJsonString kv.1 ++ ":" ++ kv.2.render ++ "," ++ Json.renderObj kvs

end

/-- The result-normalization of `view_call` (main.rs:108-119): on
`status == "success"` the `result` field is normalized by shape, else
the call yields no result (`Ok(None)` in the Rust, not an error). -/
def view_call (response : Json) : Option String :=
  if (response.getField "status").eqStr "success" then
    some (match response.getField "result" with
      | .str s => s
      | .num n => toString n
      | .bool b => if b then "true" else "false"
      | .null => "null"
      | other => other.render)
  else
    none

/-- Rust `u64` wrap-around modulus. -/
def U64_MOD : Nat := 2 ^ 64

/-- The parsed body of `GET {base}/balance/{addr}` (main.rs:42-46).
`balance_raw` is kept as the raw decimal string; the display-only
`f64` parse-and-scale of `get_balance` is not modelled (floating
point, discarded by `call_contract`). -/
structure BalanceResponse where
  balance_raw : String
  nonce : Nat
  deriving Repr, DecidableEq

/-- The remote node and the system clock as oracle streams, with a
cursor into each: index `balancePos` is the next balance fetch the node
will answer, `clockPos` the next clock sample.  Timestamps (`f64`
values of `as_secs_f64`) are an abstract type `α` rendered by
`ToString`. -/
structure World (α : Type) where
  balances : Nat → BalanceResponse
  clock : Nat → α
  balancePos : Nat
  clockPos : Nat

/-- Rust `get_balance` (main.rs:77-86): one fresh fetch from the node,
advancing the stream cursor by one. -/
def get_balance {α : Type} (w : World α) : (String × Nat) × World α :=
  (((w.balances w.balancePos).balance_raw, (w.balances w.balancePos).nonce),
    { w with balancePos := w.balancePos + 1 })

/-- The clock read `SystemTime::now().duration_since(UNIX_EPOCH)?.as_secs_f64()`
(main.rs:132): one fresh clock sample, advancing the clock cursor. -/
def read_clock {α : Type} (w : World α) : α × World α :=
  (w.clock w.clockPos, { w with clockPos := w.clockPos + 1 })

/-- The JSON body POSTed to `{base}/call-contract` (main.rs:149-158). -/
structure SubmitPayload (α : Type) where
  contract : String
  method : String
  params : List String
  caller : String
  nonce : Nat
  timestamp : α
  signature : String
  public_key : String

/-- Rust `call_contract` (main.rs:122-162): fetch `(balance, nonce)` fresh,
sample the clock once, build the six-field map with `(nonce + 1)`
(`u64` addition, hence mod `2^64`), amount `"0"` and ou `"1"`, sign it,
and build the submission payload.  `sig` abstracts the ed25519+base64
signing step, `public_key` the base64 of `sk.verifying_key()`.  Returns
the signed field map, the submitted payload, and the advanced world. -/
def call_contract {α : Type} [ToString α] (sig : String → String)
    (public_key : String) (from_addr contract method : String)
    (params : List String) (w : World α) :
    (TxFields × SubmitPayload α) × World α :=
  let ((_, nonce), w1) := get_balance w
  let (timestamp, w2) := read_clock w1
  let tx : TxFields :=
    { from_ := from_addr
      to_ := contract
      amount := "0"
      nonce := toString ((nonce + 1) % U64_MOD)
      ou := "1"
      timestamp := toString timestamp }
  let signature := sign_tx sig tx
  let payload : SubmitPayload α :=
    { contract := contract
      method := method
      params := params
      caller := from_addr
      nonce := (nonce + 1) % U64_MOD
      timestamp := timestamp
      signature := signature
      public_key := public_key }
  ((tx, payload), w2)

/-- Rust `wait_tx` (main.rs:164-188).  `elapsed i` is the truncated
whole-second reading of `duration_since(start).as_secs()` at the start
of iteration `i`; `responses i` is the parsed body of the `i`-th
`GET {base}/tx/{hash}`.  Each iteration first compares elapsed time
against the timeout (strict `>`), then fetches the status, returning
`true` on `"confirmed"` and otherwise sleeping and re-checking.  The
result carries the number of status checks performed; `fuel` bounds the
recursion (`none` = still waiting after `fuel` iterations). -/
def wait_tx (timeout : Nat) (elapsed : Nat → Nat) (responses : Nat → Json) :
    Nat → Nat → Option (Bool × Nat)
  | 0, _ => none
  | fuel + 1, i =>
    if timeout < elapsed i then some (false, i)
    else if ((responses i).getField "status").eqStr "confirmed" then some (true, i + 1)
    else wait_tx timeout elapsed responses fuel (i + 1)

/-- One HTTP response as the transport hands it to `api_call`. -/
structure HttpResponse where
  status : Nat
  body : String
  deriving Repr, DecidableEq

/-- Rust `api_call` (main.rs:48-65): dispatch on the HTTP verb, bail with
`"api error: "` plus the verbatim body text when the status code is
`>= 400`, otherwise hand the body to the serde parse (`parse`
abstracts `response.json::<T>()`, erroring with the parse-failure
detail).  One request, no retry: the function consumes exactly the one
response it is given. -/
def api_call {T : Type} (parse : String → Except String T)
    (method : String) (resp : HttpResponse) : Except String T :=
  if method = "GET" ∨ method = "POST" then
    if 400 ≤ resp.status then Except.error ("api error: " ++ resp.body)
    else parse resp.body
  else Except.error "unsupported method"

/-- The four kinds of remote operations the client can perform. -/
inductive NetworkOp where
  | viewCall
  | balanceFetch
  | submitTx
  | statusPoll
  deriving Repr, DecidableEq

/-- The `match method.method_type.as_str()` dispatcher in `main`
(main.rs:248-273), abstracted to the message it prints for an
unrecognized kind and the list of network operations the taken branch
performs: `"view"` performs one view invocation, `"call"` performs a
balance fetch and a submission and, when the operator elects to wait,
status polling; any other kind prints `"unknown method type"` and
performs nothing. -/
def dispatch (method_type : String) (wait : Bool) :
    Option String × List NetworkOp :=
  if method_type = "view" then (none, [NetworkOp.viewCall])
  else if method_type = "call" then
    (none, [NetworkOp.balanceFetch, NetworkOp.submitTx] ++
      if wait then [NetworkOp.statusPoll] else [])
  else (some "unknown method type", [])

/-- Spec-side predicate: `a` and `b` agree on five of the six
transaction fields and differ in the remaining one. -/
def differ_in_exactly_one_field (a b : TxFields) : Prop :=
  (a.from_ ≠ b.from_ ∧ a.to_ = b.to_ ∧ a.amount = b.amount ∧
    a.nonce = b.nonce ∧ a.ou = b.ou ∧ a.timestamp = b.timestamp) ∨
  (a.from_ = b.from_ ∧ a.to_ ≠ b.to_ ∧ a.amount = b.amount ∧
    a.nonce = b.nonce ∧ a.ou = b.ou ∧ a.timestamp = b.timestamp) ∨
  (a.from_ = b.from_ ∧ a.to_ = b.to_ ∧ a.amount ≠ b.amount ∧
    a.nonce = b.nonce ∧ a.ou = b.ou ∧ a.timestamp = b.timestamp) ∨
  (a.from_ = b.from_ ∧ a.to_ = b.to_ ∧ a.amount = b.amount ∧
    a.nonce ≠ b.nonce ∧ a.ou = b.ou ∧ a.timestamp = b.timestamp) ∨
  (a.from_ = b.from_ ∧ a.to_ = b.to_ ∧ a.amount = b.amount ∧
    a.nonce = b.nonce ∧ a.ou ≠ b.ou ∧ a.timestamp = b.timestamp) ∨
  (a.from_ = b.from_ ∧ a.to_ = b.to_ ∧ a.amount = b.amount ∧
    a.nonce = b.nonce ∧ a.ou = b.ou ∧ a.timestamp ≠ b.timestamp)

/-- The character data of the canonical blob, right-associated. -/
theorem canonical_blob_data (tx : TxFields) :
    (canonical_blob tx).data =
      "\x7b\"from\":\"".data ++ (tx.from_.data ++ ("\",\"to_\":\"".data ++
        (tx.to_.data ++ ("\",\"amount\":\"".data ++ (tx.amount.data ++
          ("\",\"nonce\":".data ++ (tx.nonce.data ++ (",\"ou\":\"".data ++
            (tx.ou.data ++ ("\",\"timestamp\":".data ++
              (tx.timestamp.data ++ "\x7d".data))))))))))) := by
  simp [canonical_blob, String.data_append, List.append_assoc]

/-- Changing exactly one of the six fields changes the canonical blob:
the blob is a concatenation with fixed separators, so with the other
five fields held equal the differing field cancels out positionally. -/
theorem canonical_blob_ne_of_differ_one (a b : TxFields)
    (h : differ_in_exactly_one_field a b) :
    canonical_blob a ≠ canonical_blob b := by
  intro hb
  have hd := congrArg String.data hb
  rw [canonical_blob_data, canonical_blob_data] at hd
  rcases h with ⟨hne, h2, h3, h4, h5, h6⟩ | ⟨h1, hne, h3, h4, h5, h6⟩ |
    ⟨h1, h2, hne, h4, h5, h6⟩ | ⟨h1, h2, h3, hne, h5, h6⟩ |
    ⟨h1, h2, h3, h4, hne, h6⟩ | ⟨h1, h2, h3, h4, h5, hne⟩
  · rw [← h2, ← h3, ← h4, ← h5, ← h6] at hd
    simp only [List.append_right_inj, List.append_left_inj] at hd
    exact hne (String.ext hd)
  · rw [← h1, ← h3, ← h4, ← h5, ← h6] at hd
    simp only [List.append_right_inj, List.append_left_inj] at hd
    exact hne (String.ext hd)
  · rw [← h1, ← h2, ← h4, ← h5, ← h6] at hd
    simp only [List.append_right_inj, List.append_left_inj] at hd
    exact hne (String.ext hd)
  · rw [← h1, ← h2, ← h3, ← h5, ← h6] at hd
    simp only [List.append_right_inj, List.append_left_inj] at hd
    exact hne (String.ext hd)
  · rw [← h1, ← h2, ← h3, ← h4, ← h6] at hd
    simp only [List.append_right_inj, List.append_left_inj] at hd
    exact hne (String.ext hd)
  · rw [← h1, ← h2, ← h3, ← h4, ← h5] at hd
    simp only [List.append_right_inj, List.append_left_inj] at hd
    exact hne (String.ext hd)

/-- C1: `sign_tx` serializes the six fields into the single canonical
byte string with the fixed key order from, to_, amount, nonce, ou,
timestamp — the nonce (and timestamp) spliced bare, the other fields
inside fixed quoted delimiters — and the signature is a function of
exactly that byte string: inputs with equal blobs sign identically. -/
theorem claim_C1 (sig : String → String) (tx tx' : TxFields) :
    sign_tx sig tx =
      sig ("\x7b\"from\":\"" ++ tx.from_ ++ "\",\"to_\":\"" ++ tx.to_ ++
        "\",\"amount\":\"" ++ tx.amount ++ "\",\"nonce\":" ++ tx.nonce ++
        ",\"ou\":\"" ++ tx.ou ++ "\",\"timestamp\":" ++ tx.timestamp ++ "\x7d") ∧
    (canonical_blob tx = canonical_blob tx' → sign_tx sig tx = sign_tx sig tx') :=
  ⟨rfl, fun h => congrArg sig h⟩

/-- Witness for C1 at a concrete transaction: the signed byte string is
exactly the canonical JSON-shaped text with the bare nonce. -/
theorem claim_C1_witness :
    sign_tx (fun s => s) ⟨"A", "B", "0", "5", "1", "9.5"⟩ =
      "\x7b\"from\":\"A\",\"to_\":\"B\",\"amount\":\"0\",\"nonce\":5,\"ou\":\"1\",\"timestamp\":9.5\x7d" := by
  rw [(claim_C1 (fun s => s) ⟨"A", "B", "0", "5", "1", "9.5"⟩
    ⟨"A", "B", "0", "5", "1", "9.5"⟩).1]
  decide

/-- C5: `sign_tx` is deterministic — equal inputs yield the identical
signature — and, provided the underlying ed25519 signing primitive is
injective on messages, any single-field change yields a different
signature; the canonical encoding itself admits no single-field
collision unconditionally. -/
theorem claim_C5 (sig : String → String) (hinj : Function.Injective sig)
    (tx tx' : TxFields) :
    (tx = tx' → sign_tx sig tx = sign_tx sig tx') ∧
    (differ_in_exactly_one_field tx tx' →
      canonical_blob tx ≠ canonical_blob tx' ∧
        sign_tx sig tx ≠ sign_tx sig tx') := by
  refine ⟨fun h => by rw [h], fun hd => ?_⟩
  have hb := canonical_blob_ne_of_differ_one tx tx' hd
  exact ⟨hb, fun hs => hb (hinj hs)⟩

/-- Witness for C5: two transactions differing only in the nonce get
different signatures (instantiated with the injective identity as the
signing primitive). -/
theorem claim_C5_witness :
    sign_tx (fun s => s) ⟨"A", "B", "0", "5", "1", "9.5"⟩ ≠
      sign_tx (fun s => s) ⟨"A", "B", "0", "6", "1", "9.5"⟩ :=
  ((claim_C5 (fun s => s) (fun _ _ h => h)
      ⟨"A", "B", "0", "5", "1", "9.5"⟩ ⟨"A", "B", "0", "6", "1", "9.5"⟩).2
    (Or.inr (Or.inr (Or.inr (Or.inl ⟨rfl, rfl, rfl, by decide, rfl, rfl⟩))))).2

/-- C2: `call_contract` samples the clock exactly once (the clock
cursor advances by one) and that single sample is both the payload's
`timestamp` and — via `toString` — the `timestamp` entry of the signed
field map; the signature is over the blob of exactly that map. -/
theorem claim_C2 {α : Type} [ToString α] (sig : String → String)
    (pk from_addr contract method : String) (params : List String)
    (w : World α) :
    (call_contract sig pk from_addr contract method params w).1.2.timestamp =
        w.clock w.clockPos ∧
    (call_contract sig pk from_addr contract method params w).1.1.timestamp =
        toString (w.clock w.clockPos) ∧
    (call_contract sig pk from_addr contract method params w).2.clockPos =
        w.clockPos + 1 ∧
    (call_contract sig pk from_addr contract method params w).1.2.signature =
        sig (canonical_blob
          (call_contract sig pk from_addr contract method params w).1.1) :=
  ⟨rfl, rfl, rfl, rfl⟩

/-- Counterexample to C3 as stated: Rust `u64` addition wraps, so when
the node reports nonce `2^64 - 1` the transaction carries nonce `0`,
not `fetchedNonce + 1 = 2^64`. -/
theorem claim_C3_counterexample :
    (call_contract (α := Nat) (fun s => s) "pk" "alice" "contract" "m" []
        ⟨fun _ => ⟨"0", 2 ^ 64 - 1⟩, fun _ => 0, 0, 0⟩).1.2.nonce = 0 ∧
    (2 ^ 64 - 1) + 1 ≠ 0 := by
  constructor
  · show ((2 ^ 64 - 1) + 1) % U64_MOD = 0
    simp [U64_MOD]
  · decide

/-- C3 (amended): `call_contract` fetches `(balance, nonce)` fresh from
the node (the balance cursor advances by one per call) and uses
`(fetchedNonce + 1) mod 2^64` — equal to `fetchedNonce + 1` whenever
that sum stays below `2^64` — both in the signed field map and in the
submitted payload; a second sequential call reads the next, fresh
response rather than a cached one. -/
theorem claim_C3 {α : Type} [ToString α] (sig : String → String)
    (pk from_addr contract method : String) (params : List String)
    (w : World α)
    (h : (w.balances w.balancePos).nonce + 1 < U64_MOD)
    (h2 : (w.balances (w.balancePos + 1)).nonce + 1 < U64_MOD) :
    (call_contract sig pk from_addr contract method params w).1.2.nonce =
        (w.balances w.balancePos).nonce + 1 ∧
    (call_contract sig pk from_addr contract method params w).1.1.nonce =
        toString ((w.balances w.balancePos).nonce + 1) ∧
    (call_contract sig pk from_addr contract method params w).2.balancePos =
        w.balancePos + 1 ∧
    (call_contract sig pk from_addr contract method params
          (call_contract sig pk from_addr contract method params w).2).1.2.nonce =
        (w.balances (w.balancePos + 1)).nonce + 1 := by
  refine ⟨?_, ?_, rfl, ?_⟩
  · show ((w.balances w.balancePos).nonce + 1) % U64_MOD = _
    exact Nat.mod_eq_of_lt h
  · show toString (((w.balances w.balancePos).nonce + 1) % U64_MOD) = _
    rw [Nat.mod_eq_of_lt h]
  · show ((w.balances (w.balancePos + 1)).nonce + 1) % U64_MOD = _
    exact Nat.mod_eq_of_lt h2

/-- Witness for C3 at a concrete world whose node reports nonce 7 then
8: the two sequential calls submit nonces 8 and 9. -/
theorem claim_C3_witness :
    (call_contract (α := Nat) (fun s => s) "pk" "alice" "contract" "m" []
        ⟨fun i => ⟨"0", 7 + i⟩, fun _ => 0, 0, 0⟩).1.2.nonce = 8 ∧
    (call_contract (α := Nat) (fun s => s) "pk" "alice" "contract" "m" []
        ⟨fun i => ⟨"0", 7 + i⟩, fun _ => 0, 0, 0⟩).1.1.nonce = "8" ∧
    (call_contract (α := Nat) (fun s => s) "pk" "alice" "contract" "m" []
        (call_contract (α := Nat) (fun s => s) "pk" "alice" "contract" "m" []
          ⟨fun i => ⟨"0", 7 + i⟩, fun _ => 0, 0, 0⟩).2).1.2.nonce = 9 := by
  have h := claim_C3 (α := Nat) (fun s => s) "pk" "alice" "contract" "m" []
    ⟨fun i => ⟨"0", 7 + i⟩, fun _ => 0, 0, 0⟩
    (by simp [U64_MOD]) (by simp [U64_MOD])
  exact ⟨h.1, h.2.1, h.2.2.2⟩

/-- If the poller reports confirmation after `n` checks, the `n`-th
fetched status was exactly `"confirmed"`, it was fetched before the
timeout had elapsed, and no earlier fetched status was `"confirmed"`. -/
theorem wait_tx_confirmed_sound (t : Nat) (e : Nat → Nat) (r : Nat → Json) :
    ∀ fuel i n, wait_tx t e r fuel i = some (true, n) →
      i < n ∧ ((r (n - 1)).getField "status").eqStr "confirmed" = true ∧
        e (n - 1) ≤ t ∧
        ∀ j, i ≤ j → j < n - 1 →
          ((r j).getField "status").eqStr "confirmed" = false := by
  intro fuel
  induction fuel with
  | zero => intro i n h; simp [wait_tx] at h
  | succ f ih =>
    intro i n h
    by_cases h1 : t < e i
    · simp [wait_tx, h1] at h
    · by_cases h2 : ((r i).getField "status").eqStr "confirmed" = true
      · simp [wait_tx, h1, h2] at h
        refine ⟨by omega, ?_, ?_, ?_⟩
        · rw [← h]; simpa using h2
        · rw [← h]; simpa using Nat.le_of_not_lt h1
        · intro j hj hj'; omega
      · simp [wait_tx, h1, h2] at h
        obtain ⟨hin, hc, he, hrest⟩ := ih (i + 1) n h
        refine ⟨by omega, hc, he, ?_⟩
        intro j hj hj'
        rcases Nat.eq_or_lt_of_le hj with rfl | hlt
        · exact Bool.eq_false_iff.mpr h2
        · exact hrest j hlt hj'

/-- If the first `"confirmed"` status is at check index `m`, with all
elapsed readings up to it within the timeout, the poller reports
confirmation after exactly `m + 1` checks (given enough fuel). -/
theorem wait_tx_confirmed_complete (t : Nat) (e : Nat → Nat) (r : Nat → Json)
    (m : Nat) :
    ∀ fuel i, i ≤ m → m < i + fuel →
      (∀ j, i ≤ j → j ≤ m → e j ≤ t) →
      (∀ j, i ≤ j → j < m → ((r j).getField "status").eqStr "confirmed" = false) →
      ((r m).getField "status").eqStr "confirmed" = true →
      wait_tx t e r fuel i = some (true, m + 1) := by
  intro fuel
  induction fuel with
  | zero => intro i him hfuel _ _ _; omega
  | succ f ih =>
    intro i him hfuel hel hnc hm
    have h1 : ¬ t < e i := Nat.not_lt.mpr (hel i (Nat.le_refl i) him)
    rcases Nat.eq_or_lt_of_le him with rfl | hlt
    · simp [wait_tx, h1, hm]
    · have h2 : ((r i).getField "status").eqStr "confirmed" = false :=
        hnc i (Nat.le_refl i) hlt
      simp [wait_tx, h1, h2]
      exact ih (i + 1) hlt (by omega) (fun j hj hj' => hel j (by omega) hj')
        (fun j hj hj' => hnc j (by omega) hj') hm

/-- C6: the poller reports `Confirmed` exactly when some fetched status
before the timeout equals `"confirmed"`: (i) on the concrete sequence
pending, pending, confirmed it confirms after exactly 3 checks; (ii)
whenever it confirms, the last fetched status was `"confirmed"` and was
fetched within the timeout; (iii) if no fetched status is ever
`"confirmed"` it never confirms; (iv) any other status value leaves the
loop waiting (one more iteration); (v) a first `"confirmed"` at check
`m` within the timeout yields confirmation after `m + 1` checks. -/
theorem claim_C6 :
    (wait_tx 100 (fun i => 5 * i)
        (fun i => Json.obj
          [("status", Json.str (["pending", "pending", "confirmed"].getD i "pending"))])
        10 0 = some (true, 3)) ∧
    (∀ t e r fuel i n, wait_tx t e r fuel i = some (true, n) →
        ((r (n - 1)).getField "status").eqStr "confirmed" = true ∧
          e (n - 1) ≤ t) ∧
    (∀ t e r fuel i,
        (∀ j, ((r j).getField "status").eqStr "confirmed" = false) →
        ∀ n, wait_tx t e r fuel i ≠ some (true, n)) ∧
    (∀ t e r fuel i, ¬ t < e i →
        ((r i).getField "status").eqStr "confirmed" = false →
        wait_tx t e r (fuel + 1) i = wait_tx t e r fuel (i + 1)) ∧
    (∀ t e r m fuel, m < fuel →
        (∀ j, j ≤ m → e j ≤ t) →
        (∀ j, j < m → ((r j).getField "status").eqStr "confirmed" = false) →
        ((r m).getField "status").eqStr "confirmed" = true →
        wait_tx t e r fuel 0 = some (true, m + 1)) := by
  refine ⟨by decide, ?_, ?_, ?_, ?_⟩
  · intro t e r fuel i n h
    obtain ⟨_, hc, he, _⟩ := wait_tx_confirmed_sound t e r fuel i n h
    exact ⟨hc, he⟩
  · intro t e r fuel i hnc n h
    obtain ⟨_, hc, _, _⟩ := wait_tx_confirmed_sound t e r fuel i n h
    rw [hnc (n - 1)] at hc
    exact Bool.false_ne_true hc
  · intro t e r fuel i h1 h2
    simp [wait_tx, h1, h2]
  · intro t e r m fuel hfuel hel hnc hm
    exact wait_tx_confirmed_complete t e r m fuel 0 (Nat.zero_le m)
      (by omega) (fun j _ hj' => hel j hj') (fun j _ hj' => hnc j hj') hm

/-- Witness for C6: the pending, pending, confirmed run reconstructed
through the completeness conjunct at first-confirmed index 2. -/
theorem claim_C6_witness :
    wait_tx 100 (fun i => 5 * i)
      (fun i => Json.obj
        [("status", Json.str (["pending", "pending", "confirmed"].getD i "pending"))])
      10 0 = some (true, 3) :=
  claim_C6.2.2.2.2 100 (fun i => 5 * i)
    (fun i => Json.obj
      [("status", Json.str (["pending", "pending", "confirmed"].getD i "pending"))])
    2 10 (by omega) (fun j hj => by show 5 * j ≤ 100; omega)
    (fun j hj => by interval_cases j <;> decide) (by decide)

/-- C7: with the 5-second check interval (elapsed readings within 2
seconds of the ideal `5 * i`) and a status that never becomes
`"confirmed"`, `wait_tx` with timeout 12 times out as a normal outcome
after exactly 3 status checks, with final elapsed time between 12 and
17 seconds: each iteration compares elapsed time first and transitions
to the timeout as soon as it is exceeded. -/
theorem claim_C7 (e : Nat → Nat) (r : Nat → Json)
    (h5 : ∀ i, 5 * i ≤ e i) (hub : ∀ i, e i ≤ 5 * i + 2)
    (hnc : ∀ i, ((r i).getField "status").eqStr "confirmed" = false) :
    ∀ fuel, wait_tx 12 e r (fuel + 4) 0 = some (false, 3) ∧
      12 ≤ e 3 ∧ e 3 ≤ 17 := by
  intro fuel
  have h0 : ¬ 12 < e 0 := by have := hub 0; omega
  have h1 : ¬ 12 < e 1 := by have := hub 1; omega
  have h2 : ¬ 12 < e 2 := by have := hub 2; omega
  have h3 : 12 < e 3 := by have := h5 3; omega
  refine ⟨?_, by have := h5 3; omega, by have := hub 3; omega⟩
  simp [wait_tx, h0, h1, h2, h3, hnc]

/-- Witness for C7 on the ideal run (elapsed exactly `5 * i`, status
always pending): timeout after 3 checks at 15 elapsed seconds. -/
theorem claim_C7_witness :
    wait_tx 12 (fun i => 5 * i)
      (fun _ => Json.obj [("status", Json.str "pending")]) 4 0 =
        some (false, 3) ∧
    12 ≤ 5 * 3 ∧ 5 * 3 ≤ 17 := by
  have h := claim_C7 (fun i => 5 * i)
    (fun _ => Json.obj [("status", Json.str "pending")])
    (fun i => Nat.le_refl _) (fun i => by show 5 * i ≤ 5 * i + 2; omega)
    (fun _ => rfl) 0
  simpa using h

/-- serde's `Value == "literal"` is true exactly on that string value. -/
theorem eqStr_true_iff (j : Json) (s : String) :
    j.eqStr s = true ↔ j = Json.str s := by
  cases j <;> simp [Json.eqStr]

/-- C4: on a `status` of exactly `"success"`, `view_call` normalizes
the `result` by shape — a JSON string to itself, a number to its
decimal text, a boolean to `"true"`/`"false"`, JSON null to `"null"`,
and arrays/objects to their raw serialized text; on any other `status`
it returns no result (an `Ok(None)`, not an error), regardless of the
`result` field. -/
theorem claim_C4 :
    (∀ resp : Json, resp.getField "status" ≠ Json.str "success" →
        view_call resp = none) ∧
    (∀ (resp : Json) (s : String),
        resp.getField "status" = Json.str "success" →
        resp.getField "result" = Json.str s → view_call resp = some s) ∧
    (∀ (resp : Json) (n : Int),
        resp.getField "status" = Json.str "success" →
        resp.getField "result" = Json.num n →
        view_call resp = some (toString n)) ∧
    (∀ resp : Json, resp.getField "status" = Json.str "success" →
        resp.getField "result" = Json.bool true → view_call resp = some "true") ∧
    (∀ resp : Json, resp.getField "status" = Json.str "success" →
        resp.getField "result" = Json.bool false → view_call resp = some "false") ∧
    (∀ resp : Json, resp.getField "status" = Json.str "success" →
        resp.getField "result" = Json.null → view_call resp = some "null") ∧
    (∀ (resp : Json) (xs : List Json),
        resp.getField "status" = Json.str "success" →
        resp.getField "result" = Json.arr xs →
        view_call resp = some ((Json.arr xs).render)) ∧
    (∀ (resp : Json) (fs : List (String × Json)),
        resp.getField "status" = Json.str "success" →
        resp.getField "result" = Json.obj fs →
        view_call resp = some ((Json.obj fs).render)) := by
  refine ⟨?_, ?_, ?_, ?_, ?_, ?_, ?_, ?_⟩
  · intro resp hn
    have hf : (resp.getField "status").eqStr "success" = false :=
      Bool.eq_false_iff.mpr (fun h => hn ((eqStr_true_iff _ _).mp h))
    simp [view_call, hf]
  · intro resp s hs hr; simp [view_call, hs, hr, Json.eqStr]
  · intro resp n hs hr; simp [view_call, hs, hr, Json.eqStr]
  · intro resp hs hr; simp [view_call, hs, hr, Json.eqStr]
  · intro resp hs hr; simp [view_call, hs, hr, Json.eqStr]
  · intro resp hs hr; simp [view_call, hs, hr, Json.eqStr]
  · intro resp xs hs hr; simp [view_call, hs, hr, Json.eqStr]
  · intro resp fs hs hr; simp [view_call, hs, hr, Json.eqStr]

/-- Witness for C4 at concrete responses: a number result is rendered
as its decimal text on success, and an `"error"` status yields no
result even with a populated `result` field. -/
theorem claim_C4_witness :
    view_call (Json.obj [("status", Json.str "success"),
      ("result", Json.num 42)]) = some "42" ∧
    view_call (Json.obj [("status", Json.str "error"),
      ("result", Json.num 42)]) = none :=
  ⟨claim_C4.2.2.1 _ 42 rfl rfl,
    claim_C4.1 _ (fun h => absurd (Json.str.inj h) (by decide))⟩

/-- C10: a `"success"` response with no `result` field at all is
normalized exactly like an explicit JSON null — serde's index operator
yields `Null` for the missing field, `view_call` returns `"null"`, and
the output coincides with the same response carrying an explicit
`"result": null`. -/
theorem claim_C10 (fields : List (String × Json))
    (hs : (Json.obj fields).getField "status" = Json.str "success")
    (hr : fields.find? (fun kv => kv.1 = "result") = none) :
    (Json.obj fields).getField "result" = Json.null ∧
    view_call (Json.obj fields) = some "null" ∧
    view_call (Json.obj fields) =
      view_call (Json.obj (("result", Json.null) :: fields)) := by
  have hgf : (Json.obj fields).getField "result" = Json.null := by
    simp [Json.getField, hr]
  refine ⟨hgf, ?_, ?_⟩
  · simp [view_call, hs, hgf, Json.eqStr]
  · have hfind : List.find? (fun kv => kv.1 = "status")
        (("result", Json.null) :: fields) =
        List.find? (fun kv => kv.1 = "status") fields := by
      rw [List.find?_cons_of_neg]
      simp
    have hs' : (Json.obj (("result", Json.null) :: fields)).getField "status" =
        Json.str "success" := by
      have heq : (Json.obj (("result", Json.null) :: fields)).getField "status" =
          (Json.obj fields).getField "status" := by
        simp [Json.getField, hfind]
      rw [heq]; exact hs
    have hgf' : (Json.obj (("result", Json.null) :: fields)).getField "result" =
        Json.null := by
      have hfind' : List.find? (fun kv => kv.1 = "result")
          (("result", Json.null) :: fields) = some ("result", Json.null) := by
        rw [List.find?_cons_of_pos]
        simp
      simp [Json.getField, hfind']
    simp [view_call, hs, hs', hgf, hgf', Json.eqStr]

/-- Witness for C10: `{"status": "success"}` with no `result` key
displays as `"null"`. -/
theorem claim_C10_witness :
    view_call (Json.obj [("status", Json.str "success")]) = some "null" :=
  (claim_C10 [("status", Json.str "success")] rfl rfl).2.1

/-- Counterexample to C8 as stated: status 100 is not in the 2xx/3xx
success classes, yet `api_call` does not raise the api error — the
guard in the code is `status >= 400`, so a 1xx response is parsed like
a success. -/
theorem claim_C8_counterexample :
    api_call (fun s => Except.ok s) "GET" ⟨100, "7"⟩ = Except.ok "7" ∧
    ¬ (200 ≤ 100 ∧ 100 < 400) := by
  exact ⟨by simp [api_call], by omega⟩

/-- C8 (amended): for every response with status code `>= 400` (the
client- and server-error classes), `api_call` raises the api error
carrying the response body text verbatim and does not invoke the body
parse; any status below 400 (including 1xx) is handed to the parse,
whose failure detail propagates verbatim.  The function consumes the
single response it is given — no retry. -/
theorem claim_C8 {T : Type} (parse : String → Except String T)
    (method : String) (resp : HttpResponse)
    (hm : method = "GET" ∨ method = "POST") :
    (400 ≤ resp.status →
        api_call parse method resp =
          Except.error ("api error: " ++ resp.body)) ∧
    (resp.status < 400 → api_call parse method resp = parse resp.body) := by
  rcases hm with rfl | rfl <;>
    exact ⟨fun h => by simp [api_call, h],
      fun h => by simp [api_call, Nat.not_le.mpr h]⟩

/-- Witness for C8: a 404 with body `"oops"` raises exactly
`"api error: oops"`. -/
theorem claim_C8_witness :
    api_call (fun s => Except.ok s) "GET" ⟨404, "oops"⟩ =
      Except.error "api error: oops" := by
  simpa using
    (claim_C8 (fun s => Except.ok s) "GET" ⟨404, "oops"⟩ (Or.inl rfl)).1
      (by decide)

/-- C9: for a method whose declared kind is neither `"view"` nor
`"call"`, the dispatcher prints the unrecognized-method-type message
and performs zero network operations — no view invocation, no balance
fetch, no submission, no status poll. -/
theorem claim_C9 (k : String) (w : Bool) (hv : k ≠ "view") (hc : k ≠ "call") :
    dispatch k w = (some "unknown method type", []) := by
  simp [dispatch, hv, hc]

/-- Witness for C9 at the kind `"batch"`. -/
theorem claim_C9_witness :
    dispatch "batch" true = (some "unknown method type", []) :=
  claim_C9 "batch" true (by decide) (by decide)

end Ocs01
